import Mathlib

/-!
Shallow embedding of the `market_place` repository (src/src/product.py,
src/src/category.py, src/src/data_loader.py).

Modelling conventions:
* Python `float` prices are modelled as `ℚ` (the operations the code performs
  on prices — comparison with 0, `max`, `*`, `+` — are exact on the values the
  program manipulates, and no claim depends on rounding).
* Python `int` quantities are modelled as `ℤ`.
* A raised Python exception is an `Except.error` carrying the exception class.
* Object mutation of a product held in a list is modelled by returning the
  updated list together with the call's result; the claim about aliasing of the
  category's internal list (copy-on-construct) uses an explicit address/heap
  model further below.
* The interactive confirmation read by the price setter when a price is lowered
  is modelled by a boolean oracle `conf` (`true` = the user answers "y";
  `false` = any other answer, or `EOFError` in a non-interactive run, both of
  which make the setter keep the old price and return normally).
-/

namespace MarketPlace

/-- The Python exception classes the modelled code can raise. -/
inductive PyError where
  | valueError
  | typeError
  | keyError
deriving DecidableEq, Repr

/-- The concrete product class of an instance: `Product` itself, or one of the
two subclasses with their extra fields (`Smartphone.__init__`,
`LawnGrass.__init__` store the extra fields after delegating to
`Product.__init__`). -/
inductive Variant where
  | base
  | smartphone (efficiency : ℚ) (model : String) (memory : ℤ) (color : String)
  | lawnGrass (country : String) (germination_period : String) (color : String)
deriving DecidableEq, Repr

/-- The state of a product instance: the base fields stored by
`Product.__init__` (`name`, `description`, `_Product__price`, `quantity`)
plus the concrete-class payload. -/
structure Product where
  name : String
  description : String
  price : ℚ
  quantity : ℤ
  variant : Variant
deriving DecidableEq, Repr

/-- Python `type(self) is type(other)`: the two instances have the same concrete
class. -/
def Product.sameType (p q : Product) : Bool :=
  match p.variant, q.variant with
  | .base, .base => true
  | .smartphone _ _ _ _, .smartphone _ _ _ _ => true
  | .lawnGrass _ _ _, .lawnGrass _ _ _ => true
  | _, _ => false

/-- Constructor `Product.__init__` (product.py lines 89–123): rejects a negative price,
then a negative quantity, with `ValueError`; otherwise stores the fields.
The subclass constructors delegate here first. -/
def Product.init (name description : String) (price : ℚ) (quantity : ℤ) :
    Except PyError Product :=
  if price < 0 then .error .valueError
  else if quantity < 0 then .error .valueError
  else .ok ⟨name, description, price, quantity, .base⟩

/-- Constructor `Smartphone.__init__` (product.py lines 400–436): `super().__init__` then
store the four extra fields. -/
def Smartphone.init (name description : String) (price : ℚ) (quantity : ℤ)
    (efficiency : ℚ) (model : String) (memory : ℤ) (color : String) :
    Except PyError Product :=
  (Product.init name description price quantity).map
    fun p => { p with variant := .smartphone efficiency model memory color }

/-- Constructor `LawnGrass.__init__` (product.py lines 504–537): `super().__init__` then
store the three extra fields. -/
def LawnGrass.init (name description : String) (price : ℚ) (quantity : ℤ)
    (country germination_period color : String) : Except PyError Product :=
  (Product.init name description price quantity).map
    fun p => { p with variant := .lawnGrass country germination_period color }

/-- The `price` property getter (product.py lines 216–230): re-validates the
stored price and raises `ValueError` if it has been driven negative by a
direct write to the private attribute; otherwise returns it. -/
def Product.priceGet (p : Product) : Except PyError ℚ :=
  if p.price < 0 then .error .valueError else .ok p.price

/-- The `price` property setter (product.py lines 232–272): raises
`ValueError` on `value <= 0`; when the price is being lowered it asks for
confirmation (`conf` models the answer; a declined or unavailable confirmation
leaves the price unchanged and returns normally); otherwise stores the value. -/
def Product.priceSet (p : Product) (value : ℚ) (conf : Bool) :
    Except PyError Product :=
  if value ≤ 0 then .error .valueError
  else if value < p.price then
    if conf then .ok { p with price := value } else .ok p
  else .ok { p with price := value }

/-- Operator `Product.__add__` (product.py lines 287–322): raises `TypeError` unless
both operands have the same concrete class, then returns
`self.price * self.quantity + other.price * other.quantity`, reading both
prices through the re-validating getter. -/
def Product.add (p q : Product) : Except PyError ℚ :=
  if p.sameType q then
    match p.priceGet with
    | .error e => .error e
    | .ok pp =>
      match q.priceGet with
      | .error e => .error e
      | .ok qp => .ok (pp * p.quantity + qp * q.quantity)
  else .error .typeError

/-- The base-field comparison of `Product.__eq__` (product.py lines 324–352):
short-circuits on `name` and `description`, then reads both prices through the
property getter and compares price and quantity. -/
def Product.baseEq (p q : Product) : Except PyError Bool :=
  if p.name ≠ q.name then .ok false
  else if p.description ≠ q.description then .ok false
  else
    match p.priceGet with
    | .error e => .error e
    | .ok pp =>
      match q.priceGet with
      | .error e => .error e
      | .ok qp => .ok (decide (pp = qp) && decide (p.quantity = q.quantity))

/-- Structural equality as resolved by Python's dispatch rules: comparing
instances of different concrete classes returns `False` (each subclass's
`__eq__` checks `isinstance` of its own class, and Python consults the
subclass's `__eq__` first when the operand types are related), and comparing
instances of the same class compares the base fields (`Product.__eq__`) and
then the variant fields (`Smartphone.__eq__` lines 438–464, `LawnGrass.__eq__`
lines 539–564). -/
def Product.eq (p q : Product) : Except PyError Bool :=
  match p.variant, q.variant with
  | .base, .base => p.baseEq q
  | .smartphone e m mem c, .smartphone e' m' mem' c' =>
    (p.baseEq q).map fun b =>
      b && (decide (e = e') && decide (m = m') && decide (mem = mem') && decide (c = c'))
  | .lawnGrass co g col, .lawnGrass co' g' col' =>
    (p.baseEq q).map fun b =>
      b && (decide (co = co') && decide (g = g') && decide (col = col'))
  | _, _ => .ok false

/-! ### `Product.new_product` (product.py lines 125–214) -/

/-- A parsed JSON value, as produced by `json.load`.  Python's JSON decoder
distinguishes integers from floats, hence separate `int` and `num`
constructors. -/
inductive JVal where
  | null
  | bool (b : Bool)
  | int (n : ℤ)
  | num (q : ℚ)
  | str (s : String)
  | arr (xs : List JVal)
  | obj (fields : List (String × JVal))

/-- Truncation toward zero, the behaviour of Python's `int()` on a float. -/
def ratTrunc (q : ℚ) : ℤ := if 0 ≤ q then ⌊q⌋ else -⌊-q⌋

/-- Python's `float(x)` on the value shapes a JSON record can hold: succeeds
on ints, floats and bools, fails with `TypeError`/`ValueError` (here `none`)
on `None`, lists and dicts.  Numeric strings (`float("3.5")` succeeds in
Python) are not modelled; no claim involves them. -/
def pyFloat : JVal → Option ℚ
  | .int n => some (n : ℚ)
  | .num q => some q
  | .bool b => some (if b then 1 else 0)
  | _ => none

/-- Python's `int(x)` on the value shapes a JSON record can hold: succeeds on
ints and bools, truncates floats toward zero, fails on `None`, lists and
dicts.  Integer-formatted strings are not modelled; no claim involves them. -/
def pyInt : JVal → Option ℤ
  | .int n => some n
  | .num q => some (ratTrunc q)
  | .bool b => some (if b then 1 else 0)
  | _ => none

/-- The `for existing in existing_products` loop of `new_product`
(product.py lines 197–206).  Returns `none` when no product in the list has
the record's name (the loop falls through).  On the first name match it
computes `new_quantity` and `new_price = max(existing.price, price)` (the
getter re-validates, raising if the stored price is negative), assigns
`existing.quantity` (a plain attribute write), then `existing.price` through
the validating setter — if the setter raises, the quantity write has already
happened — then replaces `existing.description` and returns the mutated
instance.  The first component of the result is the post-call state of the
list (entries are mutated in place in Python). -/
def Product.mergeInto (name description : String) (price : ℚ) (quantity : ℤ)
    (conf : Bool) : List Product → Option (List Product × Except PyError Product)
  | [] => none
  | p :: ps =>
    if p.name = name then
      match p.priceGet with
      | .error e => some (p :: ps, .error e)
      | .ok existingPrice =>
        let new_quantity := p.quantity + quantity
        let new_price := max existingPrice price
        let p1 := { p with quantity := new_quantity }
        match p1.priceSet new_price conf with
        | .error e => some (p1 :: ps, .error e)
        | .ok p2 =>
          let p3 := { p2 with description := description }
          some (p3 :: ps, .ok p3)
    else
      (Product.mergeInto name description price quantity conf ps).map
        fun r => (p :: r.1, r.2)

/-- Core of `new_product` after field extraction and coercion (product.py lines
191–214): validates non-negativity of price then quantity, consults the
existing-products list when it is truthy (a `None` or empty list skips the
loop), and otherwise constructs a fresh instance via `cls(...)` — the class
method is invoked as `Product.new_product` everywhere in this repository, so
`cls` is `Product` itself. -/
def Product.newProductChecked (name description : String) (price : ℚ)
    (quantity : ℤ) (conf : Bool) (existing : List Product) :
    List Product × Except PyError Product :=
  if price < 0 then (existing, .error .valueError)
  else if quantity < 0 then (existing, .error .valueError)
  else
    match (if existing.isEmpty then none
           else Product.mergeInto name description price quantity conf existing) with
    | some r => r
    | none =>
      match Product.init name description price quantity with
      | .ok p => (existing, .ok p)
      | .error e => (existing, .error e)

/-- Class method `Product.new_product(product_data, existing_products)` (product.py lines
125–214).  The record dict is an association list (first occurrence wins on
lookup, as in a dict there are no duplicate keys).  Checks the four required
keys (raising `KeyError` when any is missing), checks `name` and
`description` are strings (`TypeError`), coerces `price` with `float` and
`quantity` with `int` (`TypeError` on failure), then delegates to the checked
core.  A `None` `existing_products` argument is modelled as the empty list
(both are falsy at line 197). -/
def Product.new_product (rec : List (String × JVal)) (existing : List Product)
    (conf : Bool) : List Product × Except PyError Product :=
  let missing := ["name", "description", "price", "quantity"].filter
    fun k => (rec.lookup k).isNone
  if ¬ missing.isEmpty then (existing, .error .keyError)
  else
    match rec.lookup "name" with
    | some (.str name) =>
      match rec.lookup "description" with
      | some (.str description) =>
        match (rec.lookup "price").bind pyFloat with
        | some price =>
          match (rec.lookup "quantity").bind pyInt with
          | some quantity =>
            Product.newProductChecked name description price quantity conf existing
          | none => (existing, .error .typeError)
        | none => (existing, .error .typeError)
      | some _ => (existing, .error .typeError)
      | none => (existing, .error .keyError)
    | some _ => (existing, .error .typeError)
    | none => (existing, .error .keyError)

/-! ### `Category` (category.py) -/

/-- The process-wide class attributes `Category.category_count` and
`Category.product_count`. -/
structure Counters where
  category_count : ℕ
  product_count : ℕ
deriving DecidableEq, Repr

/-- A category instance: `name`, `description` and the private owned product
list `_Category__products`. -/
structure Category where
  name : String
  description : String
  products : List Product
deriving DecidableEq, Repr

/-- Constructor `Category.__init__` (category.py lines 58–86): stores name and
description, copies the supplied list into owned storage
(`products[:] if products else []`), increments the class-wide category
counter by 1 and the product counter by the length of the owned list. -/
def Category.init (name description : String) (products : List Product)
    (s : Counters) : Category × Counters :=
  let owned := if products.isEmpty then [] else products
  (⟨name, description, owned⟩,
   ⟨s.category_count + 1, s.product_count + owned.length⟩)

/-- Method `Category.add_product` (category.py lines 92–129): after the
`isinstance(product, Product)` gate — which cannot fail in this typed model,
where every argument is a product — appends to the owned list and increments
the class-wide product counter by 1.  The code performs no duplicate check. -/
def Category.add_product (c : Category) (p : Product) (s : Counters) :
    Category × Counters :=
  ({ c with products := c.products ++ [p] },
   { s with product_count := s.product_count + 1 })

/-! ### `load_categories_from_json` (data_loader.py lines 103–217) -/

/-- What the loader's source location resolves to, abstracting the file
system: the path may not exist (line 125), reading may fail with an
`OSError`/`IOError` (caught at line 207), the content may fail to parse
(`json.JSONDecodeError`, caught at line 201), or parsing yields a JSON
value. -/
inductive Source where
  | missing
  | ioError
  | parseError
  | parsed (v : JVal)

/-- The inner product loop of the loader (data_loader.py lines 170–184): for
each element of the category record's `products` list, skip non-dict
elements, otherwise call `Product.new_product(product_data)` — with no
`existing_products` argument, modelled by the empty list — appending the
result on success and skipping the record when `KeyError`/`TypeError`/
`ValueError` is raised.  The confirmation oracle is irrelevant here because
with no existing products the merge loop never runs; `true` is passed. -/
def buildStep (acc : List Product) (pd : JVal) : List Product :=
  match pd with
  | .obj fields =>
    match (Product.new_product fields [] true).2 with
    | .ok p => acc ++ [p]
    | .error _ => acc
  | _ => acc

/-- The product list accumulated by the loop of `buildStep` over a category
record's `products` array, starting from the empty `products` list of
data_loader.py line 170. -/
def buildProducts (pds : List JVal) : List Product :=
  pds.foldl buildStep []

/-- One iteration of the loader's category loop (data_loader.py lines
147–196): skip (`none`) anything that is not a dict, is missing `name` or
`description`, or has a non-string `name` or `description`; otherwise build
the products from `category_data.get("products", [])` and construct the
`Category` (whose constructor cannot raise here).  A `products` field that is
present but not a list is not modelled (Python would iterate it or raise
inside the loop; no claim involves that shape) and is treated like the
missing-field default `[]`. -/
def loadCategory (cd : JVal) (s : Counters) : Option Category × Counters :=
  match cd with
  | .obj fields =>
    match fields.lookup "name" with
    | some (.str name) =>
      match fields.lookup "description" with
      | some (.str description) =>
        let pds := match fields.lookup "products" with
          | some (.arr xs) => xs
          | _ => []
        let products := buildProducts pds
        let r := Category.init name description products s
        (some r.1, r.2)
      | _ => (none, s)
    | _ => (none, s)
  | _ => (none, s)

/-- The loader's fold over the top-level array, accumulating the successfully
constructed categories in order and threading the class-wide counters. -/
def loadLoop : List JVal → Counters → List Category × Counters
  | [], s => ([], s)
  | cd :: rest, s =>
    match loadCategory cd s with
    | (some cat, s') =>
      let r := loadLoop rest s'
      (cat :: r.1, r.2)
    | (none, s') => loadLoop rest s'

/-- Loader `load_categories_from_json` (data_loader.py lines 103–217): a missing
path, an I/O error, or unparseable content yields the empty list (the
exceptions are caught and logged, never re-raised); parsed content that is
not a list, or is an empty list, yields the empty list; otherwise each
array element is processed by the category loop.  The function's total
return type records that none of these conditions raises to the caller. -/
def load_categories_from_json (src : Source) (s : Counters) :
    List Category × Counters :=
  match src with
  | .missing => ([], s)
  | .ioError => ([], s)
  | .parseError => ([], s)
  | .parsed v =>
    match v with
    | .arr items => if items.isEmpty then ([], s) else loadLoop items s
    | _ => ([], s)

/-! ### Reference-level model of `Category.__init__`'s list copy

The value-level `Category.init` above cannot express aliasing, so the
copy-on-construct behaviour (`self.__products = products[:]`, category.py
line 80) is modelled once more over an explicit heap of Python list objects:
addresses below `next` are allocated, `products[:]` allocates a fresh address
holding the same contents, and an in-place mutation of a list object rewrites
the contents at its address only. -/

structure ListHeap where
  heap : ℕ → List Product
  next : ℕ

/-- Slice copy `products[:]`: allocate a fresh list object holding a copy of the
contents at address `a`. -/
def ListHeap.copyAlloc (s : ListHeap) (a : ℕ) : ℕ × ListHeap :=
  (s.next,
   ⟨fun i => if i = s.next then s.heap a else s.heap i, s.next + 1⟩)

/-- An in-place mutation of the list object at address `a` (`append`, `pop`,
index assignment, ... — any function of the old contents). -/
def ListHeap.mutate (s : ListHeap) (a : ℕ) (f : List Product → List Product) :
    ListHeap :=
  ⟨fun i => if i = a then f (s.heap i) else s.heap i, s.next⟩

/-- A category instance in the heap model: it holds the address of its
private product list. -/
structure CategoryRef where
  name : String
  description : String
  productsAddr : ℕ

/-- Constructor `Category.__init__` in the heap model: `self.__products = products[:]`
stores the address of a freshly allocated copy. -/
def CategoryRef.init (name description : String) (srcAddr : ℕ) (s : ListHeap) :
    CategoryRef × ListHeap :=
  let r := s.copyAlloc srcAddr
  (⟨name, description, r.1⟩, r.2)

/-- The category's observable product list: the contents of its private list
object. -/
def CategoryRef.productsOf (c : CategoryRef) (s : ListHeap) : List Product :=
  s.heap c.productsAddr

/-! ### Decidability helpers and concrete inputs used by witnesses -/

instance {ε α : Type} [DecidableEq ε] [DecidableEq α] : DecidableEq (Except ε α) :=
  fun a b =>
    match a, b with
    | .ok x, .ok y =>
      if h : x = y then isTrue (by rw [h])
      else isFalse (fun hh => h (Except.ok.inj hh))
    | .error x, .error y =>
      if h : x = y then isTrue (by rw [h])
      else isFalse (fun hh => h (Except.error.inj hh))
    | .ok _, .error _ => isFalse (fun hh => Except.noConfusion hh)
    | .error _, .ok _ => isFalse (fun hh => Except.noConfusion hh)

/-- A product record is well formed for the loader: a dict holding string
`name` and `description`, a `price` that `float()` accepts with value ≥ 0 and
a `quantity` that `int()` accepts with value ≥ 0 — exactly the records on
which `Product.new_product` does not raise. -/
def validRecord : JVal → Bool
  | .obj fields =>
    (match fields.lookup "name" with
     | some (.str _) => true
     | _ => false) &&
    (match fields.lookup "description" with
     | some (.str _) => true
     | _ => false) &&
    (match (fields.lookup "price").bind pyFloat with
     | some pr => decide (0 ≤ pr)
     | none => false) &&
    (match (fields.lookup "quantity").bind pyInt with
     | some q => decide (0 ≤ q)
     | none => false)
  | _ => false

/-- A record and an existing product sharing its name, both priced 0: the
zero-price merge corner. -/
def recZero : List (String × JVal) :=
  [("name", .str "A"), ("description", .str "d2"),
   ("price", .num 0), ("quantity", .int 2)]

/-- The existing product the zero-price record merges into. -/
def pZero : Product := ⟨"A", "old", 0, 1, .base⟩

/-- The duplicate product of the `add_product` tests
(`test_add_product_rejects_duplicate_same_object`). -/
def pDup : Product := ⟨"Test Product", "Description", 100, 5, .base⟩

/-- Two well-formed product records sharing the name `"P"`. -/
def dupRecs : List JVal :=
  [.obj [("name", .str "P"), ("description", .str "d1"),
         ("price", .num 10), ("quantity", .int 3)],
   .obj [("name", .str "P"), ("description", .str "d2"),
         ("price", .num 5), ("quantity", .int 4)]]

/-- A one-category JSON source whose `products` array is `dupRecs`: two
records with the same name `"P"`. -/
def dupSource : JVal :=
  .arr [.obj [("name", .str "Cat"), ("description", .str "D"),
    ("products", .arr dupRecs)]]

/-- A record that merges normally (positive price). -/
def recMerge : List (String × JVal) :=
  [("name", .str "A"), ("description", .str "d2"),
   ("price", .num 5), ("quantity", .int 2)]

/-- The existing product `recMerge` merges into. -/
def pMerge : Product := ⟨"A", "old", 3, 1, .base⟩

/-- Two structurally different base products for the equality witness. -/
def pEqA : Product := ⟨"Test", "Desc", 100, 5, .base⟩

/-- Product `pEqA` with one field (the price) changed. -/
def pEqB : Product := ⟨"Test", "Desc", 200, 5, .base⟩

/-- A one-object heap for the copy-on-construct witness: address 0 holds a
one-product list. -/
def heapW : ListHeap := ⟨fun _ => [pEqA], 1⟩

/-! ## Theorems -/

/-- Claim C3: construction with price ≥ 0 and quantity ≥ 0 succeeds, for the
base class and both subclasses, and the resulting instance holds exactly the
supplied name, description, price (as returned by the validating getter) and
quantity; construction with price < 0 or quantity < 0 raises `ValueError`. -/
theorem construction_validation_spec :
    (∀ (n d : String) (pr : ℚ) (q : ℤ), 0 ≤ pr → 0 ≤ q →
      Product.init n d pr q = .ok ⟨n, d, pr, q, .base⟩ ∧
      Product.priceGet ⟨n, d, pr, q, .base⟩ = .ok pr) ∧
    (∀ (n d : String) (pr : ℚ) (q : ℤ), pr < 0 ∨ q < 0 →
      Product.init n d pr q = .error .valueError) ∧
    (∀ (n d : String) (pr : ℚ) (q : ℤ) (e : ℚ) (m : String) (mem : ℤ)
        (c : String), 0 ≤ pr → 0 ≤ q →
      Smartphone.init n d pr q e m mem c =
        .ok ⟨n, d, pr, q, .smartphone e m mem c⟩) ∧
    (∀ (n d : String) (pr : ℚ) (q : ℤ) (e : ℚ) (m : String) (mem : ℤ)
        (c : String), pr < 0 ∨ q < 0 →
      Smartphone.init n d pr q e m mem c = .error .valueError) ∧
    (∀ (n d : String) (pr : ℚ) (q : ℤ) (co g col : String), 0 ≤ pr → 0 ≤ q →
      LawnGrass.init n d pr q co g col =
        .ok ⟨n, d, pr, q, .lawnGrass co g col⟩) ∧
    (∀ (n d : String) (pr : ℚ) (q : ℤ) (co g col : String), pr < 0 ∨ q < 0 →
      LawnGrass.init n d pr q co g col = .error .valueError) := by
  refine ⟨?_, ?_, ?_, ?_, ?_, ?_⟩ <;> intros n d pr q
  · intro hpr hq
    simp [Product.init, Product.priceGet, not_lt.mpr hpr, not_lt.mpr hq]
  · intro h
    by_cases h' : pr < 0
    · simp [Product.init, h']
    · have hq : q < 0 := by
        rcases h with h | h
        · exact absurd h h'
        · exact h
      simp [Product.init, h', hq]
  · intro e m mem c hpr hq
    simp [Smartphone.init, Product.init, Except.map,
      not_lt.mpr hpr, not_lt.mpr hq]
  · intro e m mem c h
    by_cases h' : pr < 0
    · simp [Smartphone.init, Product.init, Except.map, h']
    · have hq : q < 0 := by
        rcases h with h | h
        · exact absurd h h'
        · exact h
      simp [Smartphone.init, Product.init, Except.map, h', hq]
  · intro co g col hpr hq
    simp [LawnGrass.init, Product.init, Except.map,
      not_lt.mpr hpr, not_lt.mpr hq]
  · intro co g col h
    by_cases h' : pr < 0
    · simp [LawnGrass.init, Product.init, Except.map, h']
    · have hq : q < 0 := by
        rcases h with h | h
        · exact absurd h h'
        · exact h
      simp [LawnGrass.init, Product.init, Except.map, h', hq]

/-- Witness for C3 at concrete inputs: a valid construction and a negative
price rejection. -/
theorem construction_validation_spec_witness :
    (Product.init "Test" "Description" 100 10 =
      .ok ⟨"Test", "Description", 100, 10, .base⟩ ∧
     Product.priceGet ⟨"Test", "Description", 100, 10, .base⟩ = .ok 100) ∧
    Product.init "Test" "Desc" (-100) 5 = .error .valueError :=
  ⟨(construction_validation_spec.1 "Test" "Description" 100 10
      (by norm_num) (by norm_num)),
   construction_validation_spec.2.1 "Test" "Desc" (-100) 5 (by norm_num)⟩

/-- Claim C8: constructing a category with an n-product list increments the
class-wide category counter by 1 and the product counter by n, and the
category then holds exactly n products; a successful `add_product` increments
the product counter by 1 (and the held-product count by 1, leaving the
category counter alone). -/
theorem category_counters_spec :
    (∀ (n d : String) (ps : List Product) (s : Counters),
      (Category.init n d ps s).2.category_count = s.category_count + 1 ∧
      (Category.init n d ps s).2.product_count = s.product_count + ps.length ∧
      (Category.init n d ps s).1.products.length = ps.length) ∧
    (∀ (c : Category) (p : Product) (s : Counters),
      (c.add_product p s).2.product_count = s.product_count + 1 ∧
      (c.add_product p s).2.category_count = s.category_count ∧
      (c.add_product p s).1.products.length = c.products.length + 1) := by
  constructor
  · intro n d ps s
    cases ps <;> simp [Category.init]
  · intro c p s
    simp [Category.add_product]

/-- Claim C9: the category constructor copies the supplied list object
(`products[:]`), so any later in-place mutation of the source list object
leaves the category's observable products — and hence their count —
unchanged. -/
theorem category_copy_on_construct (n d : String) (a : ℕ) (s : ListHeap)
    (f : List Product → List Product) (h : a < s.next) :
    (CategoryRef.init n d a s).1.productsOf
        ((CategoryRef.init n d a s).2.mutate a f) = s.heap a ∧
    ((CategoryRef.init n d a s).1.productsOf
        ((CategoryRef.init n d a s).2.mutate a f)).length = (s.heap a).length := by
  have hne : s.next ≠ a := Nat.ne_of_gt h
  constructor <;>
    simp [CategoryRef.init, ListHeap.copyAlloc, ListHeap.mutate,
      CategoryRef.productsOf, hne]

/-- Witness for C9: a concrete heap, construction from the list at address 0,
then an append to that source list; the category still sees the original
one-product contents. -/
theorem category_copy_on_construct_witness :
    (0 : ℕ) < heapW.next ∧
    (CategoryRef.init "C" "D" 0 heapW).1.productsOf
        ((CategoryRef.init "C" "D" 0 heapW).2.mutate 0 (fun l => l ++ [pEqB])) =
      heapW.heap 0 :=
  ⟨by decide,
   (category_copy_on_construct "C" "D" 0 heapW (fun l => l ++ [pEqB])
     (by decide)).1⟩

/-- Claim C7: a missing path, an I/O failure, unparseable content, parsed
content that is not a list, and the empty list all make the loader return the
empty category list; the loader's total return type records that none of
these raises to the caller. -/
theorem loader_failure_spec :
    (∀ s : Counters, (load_categories_from_json .missing s).1 = []) ∧
    (∀ s : Counters, (load_categories_from_json .ioError s).1 = []) ∧
    (∀ s : Counters, (load_categories_from_json .parseError s).1 = []) ∧
    (∀ (s : Counters) (v : JVal), (∀ xs, v ≠ JVal.arr xs) →
      (load_categories_from_json (.parsed v) s).1 = []) ∧
    (∀ s : Counters, (load_categories_from_json (.parsed (.arr [])) s).1 = []) := by
  refine ⟨fun s => rfl, fun s => rfl, fun s => rfl, ?_, fun s => rfl⟩
  intro s v h
  cases v <;> try rfl
  exact absurd rfl (h _)

/-- Witness for C7: parsed content that is a JSON object rather than a list
yields the empty result. -/
theorem loader_failure_spec_witness :
    (load_categories_from_json (.parsed (.obj [])) ⟨0, 0⟩).1 = [] :=
  loader_failure_spec.2.2.2.1 ⟨0, 0⟩ (.obj []) (fun _ h => JVal.noConfusion h)

/-- Claim C5 (code evaluation at the failing input): `add_product` as written
performs no duplicate check — adding the same product to a category twice
appends it a second time and bumps the product counter to 2, even though the
second argument is structurally equal to the element already present.  The
repository's own tests (`test_add_product_rejects_duplicate_same_object` and
neighbours) instead demand a `ValueError` and an unchanged count. -/
theorem add_product_duplicate_appends :
    (let r1 := Category.init "Test" "Description" [] ⟨0, 0⟩
     let r2 := r1.1.add_product pDup r1.2
     let r3 := r2.1.add_product pDup r2.2
     r3.1.products = [pDup, pDup] ∧ r3.2.product_count = 2 ∧
       Product.eq pDup pDup = .ok true) := by decide

/-- Counterexample to claim C6: a source whose single category holds two
records with the same name `"P"` loads into a category with two separate
products (both named `"P"`), not one merged entity — the loader calls
`Product.new_product` without its `existing_products` argument. -/
theorem loader_duplicate_records_not_merged :
    ((load_categories_from_json (.parsed dupSource) ⟨0, 0⟩).1.map
        fun c => c.products.length) = [2] ∧
    ((load_categories_from_json (.parsed dupSource) ⟨0, 0⟩).1.map
        fun c => c.products.map fun p => p.name) = [["P", "P"]] := by decide

/-- Python `type(self) is type(other)` is symmetric. -/
theorem sameType_comm (p q : Product) : p.sameType q = q.sameType p := by
  obtain ⟨_, _, _, _, v1⟩ := p
  obtain ⟨_, _, _, _, v2⟩ := q
  cases v1 <;> cases v2 <;> rfl

/-- Claim C2: combining two products of the same concrete class (with the
price invariant in force, so that the re-validating getters succeed) returns
`p.price * p.quantity + q.price * q.quantity`; combination is commutative;
and combining two products of different concrete classes — including a
variant with the base class — raises `TypeError`. -/
theorem combine_spec :
    (∀ p q : Product, p.sameType q = true → 0 ≤ p.price → 0 ≤ q.price →
      Product.add p q = .ok (p.price * p.quantity + q.price * q.quantity)) ∧
    (∀ p q : Product, Product.add p q = Product.add q p) ∧
    (∀ p q : Product, p.sameType q = false →
      Product.add p q = .error .typeError) := by
  refine ⟨?_, ?_, ?_⟩
  · intro p q hst hp hq
    simp [Product.add, hst, Product.priceGet, not_lt.mpr hp, not_lt.mpr hq]
  · intro p q
    have hst := sameType_comm p q
    by_cases h : p.sameType q = true
    · have h' : q.sameType p = true := by rw [← hst]; exact h
      by_cases hp : p.price < 0 <;> by_cases hq : q.price < 0 <;>
        simp [Product.add, h, h', Product.priceGet, hp, hq, add_comm]
    · have hf : p.sameType q = false := by
        cases hb : p.sameType q
        · rfl
        · exact absurd hb h
      have hf' : q.sameType p = false := by rw [← hst]; exact hf
      simp [Product.add, hf, hf']
  · intro p q h
    simp [Product.add, h]

/-- Witness for C2: two base products combine to 1400 (the docstring's own
example); a smartphone combined with a lawn grass raises `TypeError`. -/
theorem combine_spec_witness :
    Product.add ⟨"Test1", "Desc1", 100, 10, .base⟩
        ⟨"Test2", "Desc2", 200, 2, .base⟩ = .ok 1400 ∧
    Product.add ⟨"Phone", "Desc", 100, 5, .smartphone 95.5 "Model" 256 "Black"⟩
        ⟨"Grass", "Desc", 50, 10, .lawnGrass "Russia" "7 days" "Green"⟩ =
      .error .typeError := by
  constructor
  · have h := combine_spec.1 ⟨"Test1", "Desc1", 100, 10, .base⟩
      ⟨"Test2", "Desc2", 200, 2, .base⟩ rfl (by norm_num) (by norm_num)
    rw [h]
    norm_num
  · exact combine_spec.2.2 _ _ rfl

/-- The base-field comparison, under the price invariant, is the conjunction
of the four field equalities. -/
theorem baseEq_nonneg (p q : Product) (hp : 0 ≤ p.price) (hq : 0 ≤ q.price) :
    p.baseEq q = .ok (decide (p.name = q.name) &&
      decide (p.description = q.description) && decide (p.price = q.price) &&
      decide (p.quantity = q.quantity)) := by
  unfold Product.baseEq
  by_cases h1 : p.name = q.name
  · by_cases h2 : p.description = q.description
    · simp [h1, h2, Product.priceGet, not_lt.mpr hp, not_lt.mpr hq]
    · simp [h1, h2]
  · simp [h1]

/-- Under the price invariant, structural equality decides equality of the
model values (same concrete class and every field equal). -/
theorem eq_characterization (p q : Product) (hp : 0 ≤ p.price)
    (hq : 0 ≤ q.price) : Product.eq p q = .ok (decide (p = q)) := by
  have hb := baseEq_nonneg p q hp hq
  obtain ⟨n1, d1, pr1, qt1, v1⟩ := p
  obtain ⟨n2, d2, pr2, qt2, v2⟩ := q
  cases v1 <;> cases v2 <;>
    simp_all [Product.eq, Except.map, Product.mk.injEq, Bool.decide_and,
      Bool.and_assoc]

/-- Claim C4: structural equality (with the price ≥ 0 invariant in force, so
the re-validating getters succeed) is reflexive and symmetric, holds exactly
when the two operands are equal model values — same concrete class and all
base and variant fields equal — and returns `False` whenever any field
differs. -/
theorem structural_equality_spec :
    (∀ p : Product, 0 ≤ p.price → Product.eq p p = .ok true) ∧
    (∀ p q : Product, 0 ≤ p.price → 0 ≤ q.price →
      Product.eq p q = Product.eq q p) ∧
    (∀ p q : Product, 0 ≤ p.price → 0 ≤ q.price →
      (Product.eq p q = .ok true ↔ p = q)) ∧
    (∀ p q : Product, 0 ≤ p.price → 0 ≤ q.price → p ≠ q →
      Product.eq p q = .ok false) := by
  refine ⟨?_, ?_, ?_, ?_⟩
  · intro p hp
    rw [eq_characterization p p hp hp]
    simp
  · intro p q hp hq
    rw [eq_characterization p q hp hq, eq_characterization q p hq hp]
    by_cases h : p = q
    · simp [h]
    · have h' : q ≠ p := fun e => h e.symm
      simp [h, h']
  · intro p q hp hq
    rw [eq_characterization p q hp hq]
    constructor
    · intro h
      simpa using h
    · intro h
      simp [h]
  · intro p q hp hq hne
    rw [eq_characterization p q hp hq]
    simp [hne]

/-- Witness for C4: a product equals itself; changing one field (the price)
breaks equality. -/
theorem structural_equality_spec_witness :
    Product.eq pEqA pEqA = .ok true ∧ Product.eq pEqA pEqB = .ok false :=
  ⟨structural_equality_spec.1 pEqA (by decide),
   structural_equality_spec.2.2.2 pEqA pEqB (by decide) (by decide) (by decide)⟩

/-- The merge loop passes over a prefix of products whose names all differ
from the record's name. -/
theorem mergeInto_append (n d : String) (pr : ℚ) (q : ℤ) (conf : Bool)
    (pre rest : List Product) (h : ∀ x ∈ pre, x.name ≠ n) :
    Product.mergeInto n d pr q conf (pre ++ rest) =
      (Product.mergeInto n d pr q conf rest).map fun r => (pre ++ r.1, r.2) := by
  induction pre with
  | nil =>
    cases hm : Product.mergeInto n d pr q conf rest with
    | none => simp [hm]
    | some r => simp [hm]
  | cons x xs ih =>
    have hx : ¬ x.name = n := h x (List.mem_cons_self x xs)
    have hxs : ∀ y ∈ xs, y.name ≠ n := fun y hy => h y (List.mem_cons_of_mem x hy)
    have ihh := ih hxs
    cases hm : Product.mergeInto n d pr q conf rest with
    | none =>
      rw [hm] at ihh
      simp only [Option.map_none'] at ihh
      simp [List.cons_append, Product.mergeInto, hx, ihh]
    | some r =>
      rw [hm] at ihh
      simp only [Option.map_some'] at ihh
      simp [List.cons_append, Product.mergeInto, hx, ihh]

/-- The merge loop at the first name match, in the normal case: the stored
price is non-negative (so the getter succeeds) and the maximum of the two
prices is positive (so the setter succeeds; it never asks for confirmation
because the maximum is never below the current price).  The matched product
is mutated in place — quantity summed, price maxed, description replaced —
and returned. -/
theorem mergeInto_found (n d : String) (pr : ℚ) (q : ℤ) (conf : Bool)
    (p : Product) (rest : List Product) (hname : p.name = n)
    (hp : 0 ≤ p.price) (hpos : 0 < max p.price pr) :
    Product.mergeInto n d pr q conf (p :: rest) =
      some ({ p with
                description := d
                price := max p.price pr
                quantity := p.quantity + q } :: rest,
        .ok { p with
                description := d
                price := max p.price pr
                quantity := p.quantity + q }) := by
  have h1 : ¬ p.price < 0 := not_lt.mpr hp
  have h2 : ¬ max p.price pr ≤ 0 := not_le.mpr hpos
  have h3 : ¬ max p.price pr < p.price := not_lt.mpr (le_max_left _ _)
  simp [Product.mergeInto, hname, Product.priceGet, Product.priceSet, h1, h2, h3]

/-- The merge loop at the first name match when both the stored price and the
record price are 0: the quantity has already been assigned when the price
setter rejects `max 0 0 = 0`, so the loop ends with the quantity mutated, the
price and description untouched, and `ValueError` raised. -/
theorem mergeInto_zero_price (n d : String) (q : ℤ) (conf : Bool)
    (p : Product) (rest : List Product) (hname : p.name = n)
    (hz : p.price = 0) :
    Product.mergeInto n d 0 q conf (p :: rest) =
      some ({ p with quantity := p.quantity + q } :: rest,
        .error .valueError) := by
  simp [Product.mergeInto, hname, Product.priceGet, Product.priceSet, hz]

/-- Field extraction of `new_product` on a record holding the four required
keys with a string name, a string description, a float price and an integer
quantity reduces to the checked core. -/
theorem new_product_extract (rec : List (String × JVal)) (n d : String)
    (pr : ℚ) (q : ℤ) (conf : Bool) (existing : List Product)
    (hn : rec.lookup "name" = some (.str n))
    (hd : rec.lookup "description" = some (.str d))
    (hp : rec.lookup "price" = some (.num pr))
    (hq : rec.lookup "quantity" = some (.int q)) :
    Product.new_product rec existing conf =
      Product.newProductChecked n d pr q conf existing := by
  simp [Product.new_product, hn, hd, hp, hq, pyFloat, pyInt]

/-- Amended claim C1: a record with the four required keys of valid types and
non-negative price and quantity, merged against a list whose first name match
is `p` (a product holding the price invariant), updates `p` in place —
quantity summed, price `max`-ed, description replaced — and returns the
mutated instance, *provided* the maximum of the two prices is positive (when
both are 0 the price setter raises instead; see the counterexample and claim
C10). -/
theorem new_product_merges_on_name_match (rec : List (String × JVal))
    (n d : String) (pr : ℚ) (q : ℤ) (conf : Bool)
    (pre rest : List Product) (p : Product)
    (hn : rec.lookup "name" = some (.str n))
    (hd : rec.lookup "description" = some (.str d))
    (hp : rec.lookup "price" = some (.num pr))
    (hq : rec.lookup "quantity" = some (.int q))
    (hpr : 0 ≤ pr) (hq0 : 0 ≤ q)
    (hmatch : p.name = n) (hpre : ∀ x ∈ pre, x.name ≠ n)
    (hinv : 0 ≤ p.price) (hpos : 0 < max p.price pr) :
    Product.new_product rec (pre ++ p :: rest) conf =
      (pre ++ { p with
                  description := d
                  price := max p.price pr
                  quantity := p.quantity + q } :: rest,
       .ok { p with
               description := d
               price := max p.price pr
               quantity := p.quantity + q }) := by
  rw [new_product_extract rec n d pr q conf _ hn hd hp hq]
  have hne : (pre ++ p :: rest).isEmpty = false := by cases pre <;> rfl
  rw [Product.newProductChecked]
  rw [if_neg (not_lt.mpr hpr), if_neg (not_lt.mpr hq0)]
  rw [hne]
  simp only [Bool.false_eq_true, if_false]
  rw [mergeInto_append n d pr q conf pre (p :: rest) hpre]
  rw [mergeInto_found n d pr q conf p rest hmatch hinv hpos]
  rfl

/-- Counterexample to claim C1 as universally stated: with the record and the
matching existing product both priced 0 — types all valid — `new_product`
raises `ValueError` instead of returning the merged instance (and has
already bumped the quantity). -/
theorem new_product_zero_price_merge_raises :
    Product.new_product recZero [pZero] true =
      ([{ pZero with quantity := 3 }], .error .valueError) ∧
    (Product.new_product recZero [pZero] true).2 ≠
      .ok { pZero with description := "d2", price := 0, quantity := 3 } := by
  decide

/-- Witness for the amended claim C1: the record `recMerge` (price 5,
quantity 2) merges into `pMerge` (price 3, quantity 1), giving price 5,
quantity 3, the new description, and returning the mutated instance. -/
theorem new_product_merges_witness :
    Product.new_product recMerge [pMerge] true =
      ([⟨"A", "d2", 5, 3, .base⟩], .ok ⟨"A", "d2", 5, 3, .base⟩) := by
  have h := new_product_merges_on_name_match recMerge "A" "d2" 5 2 true
    [] [] pMerge rfl rfl rfl rfl (by norm_num) (by decide) rfl
    (fun x hx => absurd hx (List.not_mem_nil x)) (by decide) (by decide)
  simpa using h

/-- Claim C10: on a record with valid name and description whose price is 0,
merged against a list whose first name match has stored price 0, the merge is
not atomic — the quantity of the matched product has already been increased
by the record's quantity when the price setter raises `ValueError`, and the
price and description are left unchanged. -/
theorem new_product_zero_price_partial_mutation (rec : List (String × JVal))
    (n d : String) (q : ℤ) (conf : Bool)
    (pre rest : List Product) (p : Product)
    (hn : rec.lookup "name" = some (.str n))
    (hd : rec.lookup "description" = some (.str d))
    (hp : rec.lookup "price" = some (.num 0))
    (hq : rec.lookup "quantity" = some (.int q))
    (hq0 : 0 ≤ q)
    (hmatch : p.name = n) (hpre : ∀ x ∈ pre, x.name ≠ n)
    (hz : p.price = 0) :
    Product.new_product rec (pre ++ p :: rest) conf =
      (pre ++ { p with quantity := p.quantity + q } :: rest,
       .error .valueError) := by
  rw [new_product_extract rec n d 0 q conf _ hn hd hp hq]
  have hne : (pre ++ p :: rest).isEmpty = false := by cases pre <;> rfl
  rw [Product.newProductChecked]
  rw [if_neg (lt_irrefl 0), if_neg (not_lt.mpr hq0)]
  rw [hne]
  simp only [Bool.false_eq_true, if_false]
  rw [mergeInto_append n d 0 q conf pre (p :: rest) hpre]
  rw [mergeInto_zero_price n d q conf p rest hmatch hz]
  rfl

/-- Witness for C10: the zero-priced record `recZero` against `[pZero]`. -/
theorem new_product_zero_price_partial_mutation_witness :
    Product.new_product recZero [pZero] true =
      ([{ pZero with quantity := pZero.quantity + 2 }], .error .valueError) := by
  have h := new_product_zero_price_partial_mutation recZero "A" "d2" 2 true
    [] [] pZero rfl rfl rfl rfl (by decide) rfl
    (fun x hx => absurd hx (List.not_mem_nil x)) rfl
  simpa using h

/-- A well-formed record makes `new_product` (with no existing products, as
the loader calls it) construct and return a fresh product. -/
theorem new_product_valid (fields : List (String × JVal)) (conf : Bool)
    (h : validRecord (.obj fields) = true) :
    ∃ p, Product.new_product fields [] conf = ([], .ok p) := by
  unfold validRecord at h
  simp only [Bool.and_eq_true] at h
  obtain ⟨⟨⟨h1, h2⟩, h3⟩, h4⟩ := h
  split at h1
  · rename_i ns hn
    split at h2
    · rename_i ds hd
      split at h3
      · rename_i pr hp
        split at h4
        · rename_i q hq
          simp only [decide_eq_true_eq] at h3 h4
          obtain ⟨pv, hpv, hpf⟩ := Option.bind_eq_some.mp hp
          obtain ⟨qv, hqv, hqf⟩ := Option.bind_eq_some.mp hq
          refine ⟨⟨ns, ds, pr, q, .base⟩, ?_⟩
          simp [Product.new_product, hn, hd, hpv, hqv, hpf, hqf,
            Product.newProductChecked, not_lt.mpr h3, not_lt.mpr h4,
            Product.init]
        · exact Bool.noConfusion h4
      · exact Bool.noConfusion h3
    · exact Bool.noConfusion h2
  · exact Bool.noConfusion h1

/-- A well-formed record makes the loader's product loop append exactly one
product. -/
theorem buildStep_valid (acc : List Product) (pd : JVal)
    (h : validRecord pd = true) : ∃ p, buildStep acc pd = acc ++ [p] := by
  cases pd with
  | obj fields =>
    obtain ⟨p, hp⟩ := new_product_valid fields true h
    exact ⟨p, by simp [buildStep, hp]⟩
  | null => exact Bool.noConfusion h
  | bool b => exact Bool.noConfusion h
  | int n => exact Bool.noConfusion h
  | num q => exact Bool.noConfusion h
  | str s => exact Bool.noConfusion h
  | arr xs => exact Bool.noConfusion h

/-- Folding the loader's product loop over well-formed records adds one
product per record, whatever the accumulator. -/
theorem buildFold_length (recs : List JVal)
    (h : ∀ r ∈ recs, validRecord r = true) :
    ∀ acc : List Product,
      (recs.foldl buildStep acc).length = acc.length + recs.length := by
  induction recs with
  | nil => intro acc; simp
  | cons r rs ih =>
    intro acc
    obtain ⟨p, hp⟩ := buildStep_valid acc r (h r (List.mem_cons_self r rs))
    have ihh := ih (fun y hy => h y (List.mem_cons_of_mem r hy)) (acc ++ [p])
    simp only [List.foldl_cons, hp, ihh, List.length_append, List.length_cons,
      List.length_nil]
    omega

/-- Amended claim C6: the loader does *not* merge records sharing a name — it
calls `new_product` without an existing-products list, so a category record
with well-formed product records (duplicate names or not) loads into a
category holding exactly one product per record. -/
theorem loader_builds_each_valid_record (n d : String) (recs : List JVal)
    (s : Counters) (h : ∀ r ∈ recs, validRecord r = true) :
    (loadCategory (.obj [("name", .str n), ("description", .str d),
        ("products", .arr recs)]) s).1 = some ⟨n, d, buildProducts recs⟩ ∧
    (buildProducts recs).length = recs.length := by
  constructor
  · cases hb : buildProducts recs with
    | nil => simp [loadCategory, List.lookup, Category.init, hb]
    | cons x xs => simp [loadCategory, List.lookup, Category.init, hb]
  · have hl := buildFold_length recs h []
    simpa [buildProducts] using hl

/-- Witness for the amended claim C6: the two same-named records of
`dupRecs` load into a category holding two products. -/
theorem loader_builds_each_valid_record_witness :
    (loadCategory (.obj [("name", .str "Cat"), ("description", .str "D"),
        ("products", .arr dupRecs)]) ⟨0, 0⟩).1 =
      some ⟨"Cat", "D", buildProducts dupRecs⟩ ∧
    (buildProducts dupRecs).length = dupRecs.length :=
  loader_builds_each_valid_record "Cat" "D" dupRecs ⟨0, 0⟩ (by decide)

end MarketPlace
